import Mathlib

/-!
# Verification of `kraken-iac/common`, package `option` (`types/option/option.go`)

A shallow embedding of the Go source into Lean 4.  Go structs become Lean
structures, Go pointer fields (`*T`, nil-able) become `Option`, Go maps
(`map[string]T`) become association lists looked up with `List.lookup`,
and Go `(*T, error)` returns become explicit result types.  A Go `panic`
is modelled as a dedicated result constructor, since the claims distinguish
fatal aborts from returned error values.

External collaborators (the `krakenv1alpha1` API types from the separate
`kraken-iac/kraken` repository, the `gabs` JSON library, `reflect`, and
`strconv`) are modelled from their documented behaviour at the exact
granularity this package uses them.
-/

/-- Model of `reflect.Kind` restricted to the kinds that can arise here:
the expected kinds of the two generic instantiations (`string`, `float64`)
and the kinds of values produced by unmarshalling JSON into `interface{}`
(`bool`, `float64`, `string`, `slice`, `map`). -/
inductive ReflectKind where
  | boolKind
  | float64Kind
  | stringKind
  | sliceKind
  | mapKind
deriving DecidableEq, Repr

/-- Rendering of `reflect.Kind.String()` for the kinds modelled above. -/
def ReflectKind.render : ReflectKind → String
  | .boolKind => "bool"
  | .float64Kind => "float64"
  | .stringKind => "string"
  | .sliceKind => "slice"
  | .mapKind => "map"

/-- A JSON document as produced by `encoding/json` unmarshalling into
`interface{}` (which is what `gabs.ParseJSON` stores): JSON numbers become
`float64` (idealised here as `ℚ`), strings become `string`, booleans
`bool`, arrays `[]interface\x7b\x7d`, objects `map[string]interface\x7b\x7d`,
and `null` becomes the nil interface value.  This package never reads
inside a composite value — it only inspects the top-level reflect kind —
so arrays and objects carry their serialized text rather than a nested
structure. -/
inductive JSONValue where
  | null
  | bool (b : Bool)
  | num (q : ℚ)
  | str (s : String)
  | arr (raw : String)
  | obj (raw : String)
deriving DecidableEq, Repr

/-- Model of `reflect.TypeOf(data).Kind()` on the unmarshalled value.  For JSON
`null` the unmarshalled `interface\x7b\x7d` is nil, `reflect.TypeOf` returns
the nil `reflect.Type`, and there is no kind: calling `Kind()` on it
panics.  That absence is `none`. -/
def JSONValue.reflectKind? : JSONValue → Option ReflectKind
  | .null => none
  | .bool _ => some .boolKind
  | .num _ => some .float64Kind
  | .str _ => some .stringKind
  | .arr _ => some .sliceKind
  | .obj _ => some .mapKind

/-- A raw serialized JSON payload (`apiextensionsv1.JSON.Raw` bytes),
abstracted by its parse outcome: either malformed bytes (carrying the
message from the parser) or a well-formed document. -/
inductive RawJSON where
  | malformed (msg : String)
  | wellFormed (v : JSONValue)
deriving DecidableEq, Repr

/-- Model of `gabs.ParseJSON` followed by `.Data()`: yields the document,
or the parse error for malformed input. -/
def parseJSON : RawJSON → Except String JSONValue
  | .malformed msg => .error msg
  | .wellFormed v => .ok v

/-- The Go error values this package can return, one constructor per
`errors.New` / `fmt.Errorf` site (plus the two `strconv.Atoi` failure
modes), each carrying the data interpolated into its message. -/
inductive GoError where
  /-- Sentinel `errValidationNoValueOrRef` -/
  | validationNoValueOrRef
  /-- Sentinel `errValidationBothValueAndRef` -/
  | validationBothValueAndRef
  /-- From `ValueFromConfigMap.Validate`: empty `Name` -/
  | configMapNameEmpty
  /-- From `ValueFromConfigMap.Validate`: empty `Key` -/
  | configMapKeyEmpty
  /-- From `ValueFrom.Validate`: non-nil variant count differs from 1 -/
  | invalidReferenceShape (count : Nat)
  /-- From `ToApplicableValue`: `ValueFrom` non-nil but all variants nil -/
  | malformedValueFrom
  /-- From `getValueFromConfigMap`: no entry for the ConfigMap name -/
  | missingConfigMapName (name : String)
  /-- From `getValueFromConfigMap`: name present, key absent -/
  | missingConfigMapKey (key : String) (name : String)
  /-- From `getValueFromKrakenResource`: no entry for the kind -/
  | missingKrakenKind (kind : String)
  /-- From `getValueFromKrakenResource`: kind present, resource name absent -/
  | missingKrakenName (name : String)
  /-- From `getValueFromKrakenResource`: resource present, path absent -/
  | missingKrakenPath (path : String)
  /-- From `getValueFromKrakenResource`: `gabs.ParseJSON` failed -/
  | jsonParse (msg : String)
  /-- From `getValueFromKrakenResource`: actual kind differs from expected -/
  | typeMismatch (data : JSONValue) (actual expected : ReflectKind)
  /-- From `strconv.Atoi`: invalid syntax -/
  | atoiSyntax (s : String)
  /-- From `strconv.Atoi`: value out of range -/
  | atoiRange (s : String)
deriving DecidableEq, Repr

/-- A placeholder rendering of the `fmt` verb `%s` applied to the
unmarshalled `interface\x7b\x7d` value (only its string and numeric cases
matter to the claims; the others are schematic). -/
def JSONValue.fmtS : JSONValue → String
  | .null => "%!s(<nil>)"
  | .bool b => if b then ("true") else ("false")
  | .num q => "%!s(float64=" ++ toString q ++ ")"
  | .str s => s
  | .arr raw => raw
  | .obj raw => raw

/-- The message text of each error, mirroring the Go format strings. -/
def GoError.message : GoError → String
  | .validationNoValueOrRef => "neither value reference nor concrete value provided"
  | .validationBothValueAndRef => "both value reference and concrete value provided"
  | .configMapNameEmpty => "ConfigMap name cannot be empty"
  | .configMapKeyEmpty => "ConfigMap key cannot be empty"
  | .invalidReferenceShape count =>
      "expected a single value reference but received " ++ toString count
  | .malformedValueFrom =>
      "ValueFrom object is not nil but does not contain any non-nil pointer references"
  | .missingConfigMapName name =>
      "ConfigMap \"" ++ name ++ "\" does not exist in DependentValues"
  | .missingConfigMapKey key name =>
      "key \"" ++ key ++ "\" does not exist in DependentValues ConfigMap \"" ++ name ++ "\""
  | .missingKrakenKind kind =>
      "no entry for kind \"" ++ kind ++ "\" in DependentValues"
  | .missingKrakenName name =>
      "no entry for resource \"" ++ name ++ "\" in DependentValues"
  | .missingKrakenPath path =>
      "no entry for path \"" ++ path ++ "\" in DependentValues"
  | .jsonParse msg => "error parsing JSON: " ++ msg
  | .typeMismatch data actual expected =>
      "provided value \"" ++ data.fmtS ++ "\" is of type \"" ++ actual.render
        ++ "\"; expected type \"" ++ expected.render ++ "\""
  | .atoiSyntax s => "strconv.Atoi: parsing \"" ++ s ++ "\": invalid syntax"
  | .atoiRange s => "strconv.Atoi: parsing \"" ++ s ++ "\": value out of range"

/-- The Go runtime message of calling `Kind()` on a nil `reflect.Type`. -/
def nilKindPanicMsg : String :=
  "runtime error: invalid memory address or nil pointer dereference"

/-- The argument of the `panic` in `ValueFrom.AddToDependencyRequestSpec`. -/
def unimplementedMsg : String := "Unimplemented"

/-- Outcome of a Go call returning `(*T, error)` where additionally a
`panic` can occur: `ok (some v)` is a non-nil pointer with nil error,
`ok none` is `(nil, nil)`, `err` a returned error value, `panic` a fatal
runtime abort. -/
inductive ResolveResult (α : Type) where
  | ok (val : Option α)
  | err (e : GoError)
  | panic (msg : String)
deriving DecidableEq, Repr

/-- Outcome of `ValueFrom.AddToDependencyRequestSpec`, which returns
nothing but may `panic`. -/
inductive PanicOr (α : Type) where
  | ok (a : α)
  | panicked (msg : String)
deriving DecidableEq, Repr

/-! ## External API types (`krakenv1alpha1`, from `kraken-iac/kraken`)

These are collaborator types from the surrounding orchestration system,
modelled at the granularity this package uses them: plain data records,
with Go maps rendered as association lists. -/

/-- Collaborator type `krakenv1alpha1.ConfigMapDependency`. -/
structure ConfigMapDependency where
  name : String
  key : String
deriving DecidableEq, Repr

/-- Collaborator type `krakenv1alpha1.KrakenResourceDependency`. -/
structure KrakenResourceDependency where
  kind : String
  name : String
  path : String
  reflectKind : ReflectKind
deriving DecidableEq, Repr

/-- Collaborator type `krakenv1alpha1.DependencyRequestSpec`, restricted to the two
dependency lists this package appends to. -/
structure DependencyRequestSpec where
  krakenResourceDependencies : List KrakenResourceDependency
  configMapDependencies : List ConfigMapDependency
deriving DecidableEq, Repr

/-- Collaborator type `krakenv1alpha1.DependentValuesFromConfigMaps`:
`map[string]map[string]string` (ConfigMap name → key → value). -/
abbrev DependentValuesFromConfigMaps := List (String × List (String × String))

/-- Collaborator type `krakenv1alpha1.DependentValuesFromKrakenResources`:
kind → resource name → path → raw JSON payload. -/
abbrev DependentValuesFromKrakenResources :=
  List (String × List (String × List (String × RawJSON)))

/-- Collaborator type `krakenv1alpha1.DependentValues`: the dependent-value bag supplied by
the caller at resolution time. -/
structure DependentValues where
  fromConfigMaps : DependentValuesFromConfigMaps
  fromKrakenResources : DependentValuesFromKrakenResources
deriving DecidableEq, Repr

/-! ## The `option` package data model -/

/-- Struct `option.ValueFromConfigMap`. -/
structure ValueFromConfigMap where
  name : String
  key : String
deriving DecidableEq, Repr

/-- Struct `option.ValueFromSecret`. -/
structure ValueFromSecret where
  name : String
  key : String
deriving DecidableEq, Repr

/-- Struct `option.ValueFromKrakenResource`. -/
structure ValueFromKrakenResource where
  kind : String
  name : String
  path : String
deriving DecidableEq, Repr

/-- Struct `option.ValueFrom`: three nil-able variant pointers. -/
structure ValueFrom where
  configMap : Option ValueFromConfigMap
  secret : Option ValueFromSecret
  krakenResource : Option ValueFromKrakenResource
deriving DecidableEq, Repr

/-- Struct `option.String`: a nil-able literal and a nil-able reference.  Named
`StringOption` because `String` is taken in Lean. -/
structure StringOption where
  value : Option String
  valueFrom : Option ValueFrom
deriving DecidableEq, Repr

/-- Struct `option.Int`.  Named `IntOption` because `Int` is taken in Lean. -/
structure IntOption where
  value : Option Int
  valueFrom : Option ValueFrom
deriving DecidableEq, Repr

/-! ## Operations -/

/-- Method `ValueFromConfigMap.ToConfigMapDependency`. -/
def ValueFromConfigMap.toConfigMapDependency
    (vfcm : ValueFromConfigMap) : ConfigMapDependency :=
  { name := vfcm.name, key := vfcm.key }

/-- Method `ValueFromConfigMap.Validate`: empty name, then empty key, checked
in order; `none` is the nil (success) error. -/
def ValueFromConfigMap.validate (vfcm : ValueFromConfigMap) : Option GoError :=
  if vfcm.name = "" then some .configMapNameEmpty
  else if vfcm.key = "" then some .configMapKeyEmpty
  else none

/-- Method `ValueFromKrakenResource.ToKrakenResourceDependency`. -/
def ValueFromKrakenResource.toKrakenResourceDependency
    (vfkr : ValueFromKrakenResource) (kind : ReflectKind) : KrakenResourceDependency :=
  { kind := vfkr.kind, name := vfkr.name, path := vfkr.path, reflectKind := kind }

/-- The `nonNilCount` computed by `ValueFrom.Validate`. -/
def ValueFrom.nonNilCount (vf : ValueFrom) : Nat :=
  (if vf.configMap.isSome then 1 else 0)
    + (if vf.secret.isSome then 1 else 0)
    + (if vf.krakenResource.isSome then 1 else 0)

/-- Method `ValueFrom.Validate`: succeeds iff exactly one variant is non-nil.
Sub-field contents are not inspected. -/
def ValueFrom.validate (vf : ValueFrom) : Option GoError :=
  if vf.nonNilCount ≠ 1 then some (.invalidReferenceShape vf.nonNilCount)
  else none

/-- Method `ValueFrom.AddToDependencyRequestSpec`: appends a KrakenResource
dependency if that variant is set, then a ConfigMap dependency if that
variant is set, then panics if the Secret variant is set.  `dr` is passed
by pointer in Go; here the updated record is returned (the panic case
discards the writes already made, which no claim observes). -/
def ValueFrom.addToDependencyRequestSpec (vf : ValueFrom)
    (dr : DependencyRequestSpec) (kind : ReflectKind) : PanicOr DependencyRequestSpec :=
  let dr₁ :=
    match vf.krakenResource with
    | some vfkr =>
        { dr with krakenResourceDependencies :=
            dr.krakenResourceDependencies ++ [vfkr.toKrakenResourceDependency kind] }
    | none => dr
  let dr₂ :=
    match vf.configMap with
    | some vfcm =>
        { dr₁ with configMapDependencies :=
            dr₁.configMapDependencies ++ [vfcm.toConfigMapDependency] }
    | none => dr₁
  match vf.secret with
  | some _ => .panicked unimplementedMsg
  | none => .ok dr₂

/-- Helper `getValueFromConfigMap`: two-level lookup, with a distinct error
for a missing name and for a missing key. -/
def getValueFromConfigMap (cmRef : ValueFromConfigMap)
    (cmVals : DependentValuesFromConfigMaps) : Except GoError String :=
  match cmVals.lookup cmRef.name with
  | none => .error (.missingConfigMapName cmRef.name)
  | some cm =>
    match cm.lookup cmRef.key with
    | none => .error (.missingConfigMapKey cmRef.key cmRef.name)
    | some val => .ok val

/-- The lookup-and-parse prefix of `getValueFromKrakenResource`, shared by
its two instantiations: three-level lookup, then `gabs.ParseJSON`, then
`reflect.TypeOf(data).Kind()` — which panics when the parsed document is
JSON `null` (nil interface, nil `reflect.Type`). -/
def fetchKrakenResourceData (krRef : ValueFromKrakenResource)
    (krVals : DependentValuesFromKrakenResources) :
    ResolveResult (JSONValue × ReflectKind) :=
  match krVals.lookup krRef.kind with
  | none => .err (.missingKrakenKind krRef.kind)
  | some kindMap =>
    match kindMap.lookup krRef.name with
    | none => .err (.missingKrakenName krRef.name)
    | some resource =>
      match resource.lookup krRef.path with
      | none => .err (.missingKrakenPath krRef.path)
      | some jsonVal =>
        match parseJSON jsonVal with
        | .error msg => .err (.jsonParse msg)
        | .ok data =>
          match data.reflectKind? with
          | none => .panic nilKindPanicMsg
          | some actual => .ok (some (data, actual))

/-- Instantiation `getValueFromKrakenResource[string]`: `T = string`.
Expected kind is `reflect.String`; on a kind match the type assertion
`data.(string)` yields the string payload. -/
def getValueFromKrakenResourceString (krRef : ValueFromKrakenResource)
    (krVals : DependentValuesFromKrakenResources) : ResolveResult String :=
  match fetchKrakenResourceData krRef krVals with
  | .err e => .err e
  | .panic msg => .panic msg
  | .ok none => .ok none
  | .ok (some (data, actual)) =>
    if actual = .stringKind then
      match data with
      | .str s => .ok (some s)
      | _ => .panic ("interface conversion")
    else .err (.typeMismatch data actual .stringKind)

/-- Instantiation `getValueFromKrakenResource[float64]`: `T = float64`.
Expected kind is `reflect.Float64`. -/
def getValueFromKrakenResourceFloat64 (krRef : ValueFromKrakenResource)
    (krVals : DependentValuesFromKrakenResources) : ResolveResult ℚ :=
  match fetchKrakenResourceData krRef krVals with
  | .err e => .err e
  | .panic msg => .panic msg
  | .ok none => .ok none
  | .ok (some (data, actual)) =>
    if actual = .float64Kind then
      match data with
      | .num q => .ok (some q)
      | _ => .panic ("interface conversion")
    else .err (.typeMismatch data actual .float64Kind)

/-- Model of `strconv.Atoi`: optional single leading sign, then one or
more decimal digits, rejecting anything else (`invalid syntax`) and
values outside the 64-bit signed range (`value out of range`). -/
def goAtoi (s : String) : Except GoError Int :=
  let cs := s.data
  let signAndDigits : Bool × List Char :=
    match cs with
    | c :: rest =>
      if c = Char.ofNat 45 then (true, rest)
      else if c = Char.ofNat 43 then (false, rest)
      else (false, cs)
    | [] => (false, [])
  let neg := signAndDigits.1
  let ds := signAndDigits.2
  if ds.isEmpty then .error (.atoiSyntax s)
  else if ds.all Char.isDigit then
    let n : Nat := ds.foldl (fun acc c => acc * 10 + (c.toNat - 48)) 0
    let v : Int := if neg then -(n : Int) else (n : Int)
    if v < -(2 ^ 63) ∨ 2 ^ 63 - 1 < v then .error (.atoiRange s)
    else .ok v
  else .error (.atoiSyntax s)

/-- The Go conversion `int(f)` from `float64`, on the idealised rational:
truncation toward zero (discard the fractional part). -/
def goFloat64ToInt (q : ℚ) : Int := q.num.tdiv (q.den : Int)

/-- Method `String.ToApplicableValue`: literal first; then nil reference gives
`(nil, nil)`; then the ConfigMap variant, then the KrakenResource
variant; otherwise the malformed-reference error. -/
def StringOption.toApplicableValue (s : StringOption)
    (dv : DependentValues) : ResolveResult String :=
  match s.value with
  | some v => .ok (some v)
  | none =>
    match s.valueFrom with
    | none => .ok none
    | some vf =>
      match vf.configMap with
      | some cm =>
        match getValueFromConfigMap cm dv.fromConfigMaps with
        | .ok val => .ok (some val)
        | .error e => .err e
      | none =>
        match vf.krakenResource with
        | some kr => getValueFromKrakenResourceString kr dv.fromKrakenResources
        | none => .err .malformedValueFrom

/-- Method `String.Validate`. -/
def StringOption.validate (s : StringOption) : Option GoError :=
  match s.value with
  | some _ =>
    match s.valueFrom with
    | some _ => some .validationBothValueAndRef
    | none => none
  | none =>
    match s.valueFrom with
    | none => some .validationNoValueOrRef
    | some vf => vf.validate

/-- Method `Int.ToApplicableValue`: literal first; nil reference gives
`(nil, nil)`; the ConfigMap variant goes through `strconv.Atoi`; the
KrakenResource variant fetches a `float64` and converts with `int(...)`;
otherwise the malformed-reference error. -/
def IntOption.toApplicableValue (i : IntOption)
    (dv : DependentValues) : ResolveResult Int :=
  match i.value with
  | some v => .ok (some v)
  | none =>
    match i.valueFrom with
    | none => .ok none
    | some vf =>
      match vf.configMap with
      | some cm =>
        match getValueFromConfigMap cm dv.fromConfigMaps with
        | .error e => .err e
        | .ok valString =>
          match goAtoi valString with
          | .error e => .err e
          | .ok val => .ok (some val)
      | none =>
        match vf.krakenResource with
        | some kr =>
          match getValueFromKrakenResourceFloat64 kr dv.fromKrakenResources with
          | .err e => .err e
          | .panic msg => .panic msg
          | .ok none => .ok none
          | .ok (some valFloat) => .ok (some (goFloat64ToInt valFloat))
        | none => .err .malformedValueFrom

/-- Method `Int.Validate` (same shape as `String.Validate`). -/
def IntOption.validate (i : IntOption) : Option GoError :=
  match i.value with
  | some _ =>
    match i.valueFrom with
    | some _ => some .validationBothValueAndRef
    | none => none
  | none =>
    match i.valueFrom with
    | none => some .validationNoValueOrRef
    | some vf => vf.validate

/-- Three-level lookup into the resource part of the bag, used to phrase
hypotheses about what a reference points at. -/
def krakenLookup (krVals : DependentValuesFromKrakenResources)
    (kr : ValueFromKrakenResource) : Option RawJSON :=
  (krVals.lookup kr.kind).bind fun kindMap =>
    (kindMap.lookup kr.name).bind fun resource =>
      resource.lookup kr.path

deriving instance DecidableEq for Except

/-! ## Derived characterisations and helper lemmas -/

/-- The shape the spec describes in words: exactly one of the three
variant pointers is non-nil. -/
def ValueFrom.exactlyOneVariant (vf : ValueFrom) : Prop :=
  (vf.configMap.isSome ∧ vf.secret = none ∧ vf.krakenResource = none) ∨
  (vf.configMap = none ∧ vf.secret.isSome ∧ vf.krakenResource = none) ∨
  (vf.configMap = none ∧ vf.secret = none ∧ vf.krakenResource.isSome)

lemma valueFrom_validate_none_iff (vf : ValueFrom) :
    vf.validate = none ↔ vf.exactlyOneVariant := by
  obtain ⟨cm, sec, kr⟩ := vf
  cases cm <;> cases sec <;> cases kr <;>
    simp [ValueFrom.validate, ValueFrom.nonNilCount, ValueFrom.exactlyOneVariant]

lemma stringOption_validate_none_iff (s : StringOption) :
    s.validate = none ↔
      (s.value.isSome ∧ s.valueFrom = none) ∨
      (s.value = none ∧ ∃ vf, s.valueFrom = some vf ∧ vf.exactlyOneVariant) := by
  obtain ⟨v, vf⟩ := s
  cases v <;> cases vf <;>
    simp [StringOption.validate, valueFrom_validate_none_iff]

lemma intOption_validate_none_iff (i : IntOption) :
    i.validate = none ↔
      (i.value.isSome ∧ i.valueFrom = none) ∨
      (i.value = none ∧ ∃ vf, i.valueFrom = some vf ∧ vf.exactlyOneVariant) := by
  obtain ⟨v, vf⟩ := i
  cases v <;> cases vf <;>
    simp [IntOption.validate, valueFrom_validate_none_iff]

lemma fetchKrakenResourceData_of_lookup (kr : ValueFromKrakenResource)
    (krVals : DependentValuesFromKrakenResources) (raw : RawJSON)
    (h : krakenLookup krVals kr = some raw) :
    fetchKrakenResourceData kr krVals =
      match parseJSON raw with
      | .error msg => .err (.jsonParse msg)
      | .ok data =>
        match data.reflectKind? with
        | none => .panic nilKindPanicMsg
        | some actual => .ok (some (data, actual)) := by
  unfold krakenLookup at h
  unfold fetchKrakenResourceData
  cases h1 : krVals.lookup kr.kind with
  | none => rw [h1] at h; simp at h
  | some kindMap =>
    rw [h1] at h
    simp only [Option.bind_some, Option.some_bind] at h
    cases h2 : kindMap.lookup kr.name with
    | none => rw [h2] at h; simp at h
    | some resource =>
      rw [h2] at h
      simp only [Option.some_bind] at h
      simp only [h2, h]

lemma intOption_resolve_krakenResource_unfold (i : IntOption) (vf : ValueFrom)
    (kr : ValueFromKrakenResource) (dv : DependentValues)
    (hv : i.value = none) (hvf : i.valueFrom = some vf)
    (hcm : vf.configMap = none) (hkr : vf.krakenResource = some kr) :
    i.toApplicableValue dv =
      match getValueFromKrakenResourceFloat64 kr dv.fromKrakenResources with
      | .err e => .err e
      | .panic msg => .panic msg
      | .ok none => .ok none
      | .ok (some valFloat) => .ok (some (goFloat64ToInt valFloat)) := by
  simp only [IntOption.toApplicableValue, hv, hvf, hcm, hkr]

lemma stringOption_resolve_krakenResource_unfold (s : StringOption) (vf : ValueFrom)
    (kr : ValueFromKrakenResource) (dv : DependentValues)
    (hv : s.value = none) (hvf : s.valueFrom = some vf)
    (hcm : vf.configMap = none) (hkr : vf.krakenResource = some kr) :
    s.toApplicableValue dv = getValueFromKrakenResourceString kr dv.fromKrakenResources := by
  simp only [StringOption.toApplicableValue, hv, hvf, hcm, hkr]

lemma goFloat64ToInt_eq_floor (q : ℚ) (h : 0 ≤ q) : goFloat64ToInt q = ⌊q⌋ := by
  rw [goFloat64ToInt, Rat.floor_def]
  exact Int.tdiv_eq_ediv (Rat.num_nonneg.mpr h) (Int.natCast_nonneg q.den)

lemma goFloat64ToInt_neg (q : ℚ) : goFloat64ToInt (-q) = -goFloat64ToInt q := by
  show (-q).num.tdiv ((-q).den : Int) = -(q.num.tdiv (q.den : Int))
  rw [show (-q).num = -q.num from rfl, show (-q).den = q.den from rfl, Int.neg_tdiv]

lemma goFloat64ToInt_eq_ceil (q : ℚ) (h : q ≤ 0) : goFloat64ToInt q = ⌈q⌉ := by
  have h2 : goFloat64ToInt q = -goFloat64ToInt (-q) := by
    rw [goFloat64ToInt_neg, neg_neg]
  rw [h2, goFloat64ToInt_eq_floor (-q) (by linarith), ← Int.ceil_neg, neg_neg]

/-! ## Concrete fixtures used by witnesses and counterexamples -/

/-- A ConfigMap reference to key `port` of ConfigMap `cfg`. -/
def cmRefPort : ValueFromConfigMap := { name := "cfg", key := "port" }

/-- A KrakenResource reference to path `replicas` of `Deployment/web`. -/
def krRefReplicas : ValueFromKrakenResource :=
  { kind := "Deployment", name := "web", path := "replicas" }

/-- A reference with only the ConfigMap variant populated. -/
def vfConfigOnly : ValueFrom :=
  { configMap := some cmRefPort, secret := none, krakenResource := none }

/-- A reference with only the KrakenResource variant populated. -/
def vfKrakenOnly : ValueFrom :=
  { configMap := none, secret := none, krakenResource := some krRefReplicas }

/-- A reference with only the Secret variant populated. -/
def vfSecretOnly : ValueFrom :=
  { configMap := none,
    secret := some { name := "sec", key := "tok" },
    krakenResource := none }

/-- The rational 3.9 (39/10), the number the spec resolves to 3. -/
def qThreeNine : ℚ := ⟨39, 10, by decide, by decide⟩

/-- An empty dependent-value bag. -/
def emptyBag : DependentValues := { fromConfigMaps := [], fromKrakenResources := [] }

/-- A bag where ConfigMap `cfg` maps `port` to the string `8080`. -/
def bagPort8080 : DependentValues :=
  { fromConfigMaps := [("cfg", [("port", "8080")])], fromKrakenResources := [] }

/-- A bag where ConfigMap `cfg` maps `port` to the string `42`. -/
def bagPort42 : DependentValues :=
  { fromConfigMaps := [("cfg", [("port", "42")])], fromKrakenResources := [] }

/-- A bag where ConfigMap `cfg` maps `port` to the non-numeric `hello`. -/
def bagPortHello : DependentValues :=
  { fromConfigMaps := [("cfg", [("port", "hello")])], fromKrakenResources := [] }

/-- A bag where `Deployment/web` has JSON payload `3.9` at `replicas`. -/
def bagReplicas39 : DependentValues :=
  { fromConfigMaps := [],
    fromKrakenResources :=
      [("Deployment",
        [("web", [("replicas", RawJSON.wellFormed (JSONValue.num qThreeNine))])])] }

/-- A bag where `Deployment/web` has JSON payload `"hello"` at `replicas`. -/
def bagReplicasHello : DependentValues :=
  { fromConfigMaps := [],
    fromKrakenResources :=
      [("Deployment",
        [("web", [("replicas", RawJSON.wellFormed (JSONValue.str ("hello")))])])] }

/-- A bag where `Deployment/web` has JSON payload `null` at `replicas`. -/
def bagReplicasNull : DependentValues :=
  { fromConfigMaps := [],
    fromKrakenResources :=
      [("Deployment", [("web", [("replicas", RawJSON.wellFormed JSONValue.null)])])] }

/-- An integer option referencing ConfigMap `cfg` key `port`. -/
def iOptConfig : IntOption := { value := none, valueFrom := some vfConfigOnly }

/-- An integer option referencing `Deployment/web` path `replicas`. -/
def iOptKraken : IntOption := { value := none, valueFrom := some vfKrakenOnly }

/-- A string option referencing `Deployment/web` path `replicas`. -/
def sOptKraken : StringOption := { value := none, valueFrom := some vfKrakenOnly }

/-- A non-empty dependency request, to observe appends. -/
def drSample : DependencyRequestSpec :=
  { krakenResourceDependencies :=
      [{ kind := "Existing", name := "kr0", path := "p0", reflectKind := .boolKind }],
    configMapDependencies := [{ name := "cm0", key := "k0" }] }

/-! ## Claims -/

/-- C1 counterexample: a reference-only String option whose ConfigMap
variant has an empty name and key still validates successfully, because
`String.Validate` delegates only to `ValueFrom.Validate`, which counts
non-nil variants and never inspects sub-fields; the sub-field validator
`ValueFromConfigMap.Validate` (which does reject the empty name) is not
invoked on that path.  This refutes the claim that validation succeeds
only when all required sub-fields of the populated variant are non-empty. -/
theorem validate_accepts_empty_configMap_subfields :
    StringOption.validate
      { value := none,
        valueFrom := some
          { configMap := some { name := "", key := "" },
            secret := none, krakenResource := none } } = none
    ∧ ValueFromConfigMap.validate { name := "", key := "" }
        = some GoError.configMapNameEmpty := by
  constructor
  · rfl
  · rfl

/-- C1 (amended): for every String or Int option, `Validate()` succeeds
iff exactly one of the literal value and the reference is set, and for
reference-only options iff exactly one `ValueFrom` variant is non-nil
(sub-field emptiness is not checked on this path); both-set fails with
the both-value-and-reference sentinel and neither-set fails with the
no-value-or-reference sentinel. -/
theorem validate_succeeds_iff_exactly_one_source (s : StringOption) (i : IntOption) :
    (s.validate = none ↔
      (s.value.isSome ∧ s.valueFrom = none) ∨
      (s.value = none ∧ ∃ vf, s.valueFrom = some vf ∧ vf.exactlyOneVariant)) ∧
    (i.validate = none ↔
      (i.value.isSome ∧ i.valueFrom = none) ∨
      (i.value = none ∧ ∃ vf, i.valueFrom = some vf ∧ vf.exactlyOneVariant)) ∧
    (s.value.isSome → s.valueFrom.isSome →
      s.validate = some GoError.validationBothValueAndRef) ∧
    (s.value = none → s.valueFrom = none →
      s.validate = some GoError.validationNoValueOrRef) ∧
    (i.value.isSome → i.valueFrom.isSome →
      i.validate = some GoError.validationBothValueAndRef) ∧
    (i.value = none → i.valueFrom = none →
      i.validate = some GoError.validationNoValueOrRef) := by
  refine ⟨stringOption_validate_none_iff s, intOption_validate_none_iff i, ?_, ?_, ?_, ?_⟩
  · obtain ⟨v, vf⟩ := s
    cases v <;> cases vf <;> simp [StringOption.validate]
  · obtain ⟨v, vf⟩ := s
    cases v <;> cases vf <;> simp [StringOption.validate]
  · obtain ⟨v, vf⟩ := i
    cases v <;> cases vf <;> simp [IntOption.validate]
  · obtain ⟨v, vf⟩ := i
    cases v <;> cases vf <;> simp [IntOption.validate]

/-- Witness for C1: a both-set String option fails with the
both-value-and-reference sentinel, a neither-set Int option fails with
the no-value-or-reference sentinel, and a reference-only option with a
single populated variant validates. -/
theorem validate_succeeds_iff_exactly_one_source_witness :
    StringOption.validate { value := some ("x"), valueFrom := some vfConfigOnly }
        = some GoError.validationBothValueAndRef
    ∧ IntOption.validate { value := none, valueFrom := none }
        = some GoError.validationNoValueOrRef
    ∧ IntOption.validate iOptConfig = none := by
  refine ⟨?_, ?_, ?_⟩
  · exact (validate_succeeds_iff_exactly_one_source
      { value := some ("x"), valueFrom := some vfConfigOnly }
      { value := none, valueFrom := none }).2.2.1 (by decide) (by decide)
  · exact (validate_succeeds_iff_exactly_one_source
      { value := some ("x"), valueFrom := some vfConfigOnly }
      { value := none, valueFrom := none }).2.2.2.2.2 rfl rfl
  · exact (validate_succeeds_iff_exactly_one_source
      { value := some ("x"), valueFrom := some vfConfigOnly } iOptConfig).2.1.mpr
      (Or.inr ⟨rfl, vfConfigOnly, rfl, Or.inl (by decide)⟩)

/-- C2 counterexample: resolving a String or Int option whose reference
has only the Secret variant populated does not abort fatally — both
`ToApplicableValue` paths return the soft malformed-reference error
value, because resolution checks only the ConfigMap and KrakenResource
variants and falls through to the final `errors.New` return. -/
theorem secretOnly_resolution_returns_soft_error :
    StringOption.toApplicableValue { value := none, valueFrom := some vfSecretOnly }
        emptyBag = .err GoError.malformedValueFrom
    ∧ IntOption.toApplicableValue { value := none, valueFrom := some vfSecretOnly }
        emptyBag = .err GoError.malformedValueFrom := by
  constructor
  · rfl
  · rfl

/-- C2 (amended): for every ValueFrom with only the Secret variant
populated, materialization via `AddToDependencyRequestSpec` aborts
fatally with the explicit `Unimplemented` panic, while resolution via
`ToApplicableValue` instead returns the soft malformed-reference error
value (it does not abort). -/
theorem secret_materialization_panics_resolution_soft
    (vf : ValueFrom) (sec : ValueFromSecret) (dr : DependencyRequestSpec)
    (kind : ReflectKind) (dv : DependentValues)
    (hcm : vf.configMap = none) (hsec : vf.secret = some sec)
    (hkr : vf.krakenResource = none) :
    vf.addToDependencyRequestSpec dr kind = .panicked unimplementedMsg
    ∧ StringOption.toApplicableValue { value := none, valueFrom := some vf } dv
        = .err GoError.malformedValueFrom
    ∧ IntOption.toApplicableValue { value := none, valueFrom := some vf } dv
        = .err GoError.malformedValueFrom := by
  refine ⟨?_, ?_, ?_⟩
  · simp only [ValueFrom.addToDependencyRequestSpec, hcm, hsec, hkr]
  · simp only [StringOption.toApplicableValue, hcm, hkr]
  · simp only [IntOption.toApplicableValue, hcm, hkr]

/-- Witness for C2: the secret-only fixture panics on materialization and
soft-errors on resolution. -/
theorem secret_materialization_panics_resolution_soft_witness :
    vfSecretOnly.addToDependencyRequestSpec drSample .stringKind
        = .panicked unimplementedMsg
    ∧ IntOption.toApplicableValue { value := none, valueFrom := some vfSecretOnly }
        bagPort8080 = .err GoError.malformedValueFrom := by
  have h := secret_materialization_panics_resolution_soft vfSecretOnly
    { name := "sec", key := "tok" } drSample .stringKind bagPort8080 rfl rfl rfl
  exact ⟨h.1, h.2.2⟩

/-- C3: a present literal value is returned unchanged, with no error,
whatever the bag holds — the bag is universally quantified and never
consulted — even when a reference is also present (the literal check
comes first in both `ToApplicableValue` implementations). -/
theorem literal_resolution_returns_literal
    (s : StringOption) (i : IntOption) (v : String) (n : Int)
    (dv : DependentValues) (hs : s.value = some v) (hi : i.value = some n) :
    s.toApplicableValue dv = .ok (some v)
    ∧ i.toApplicableValue dv = .ok (some n) := by
  constructor
  · simp only [StringOption.toApplicableValue, hs]
  · simp only [IntOption.toApplicableValue, hi]

/-- Witness for C3: literal-bearing options that also carry a reference
resolve to their literals against the empty bag (which lacks every
referenced entry). -/
theorem literal_resolution_returns_literal_witness :
    StringOption.toApplicableValue
        { value := some ("lit"), valueFrom := some vfConfigOnly } emptyBag
      = .ok (some ("lit"))
    ∧ IntOption.toApplicableValue
        { value := some 7, valueFrom := some vfKrakenOnly } emptyBag
      = .ok (some 7) :=
  literal_resolution_returns_literal
    { value := some ("lit"), valueFrom := some vfConfigOnly }
    { value := some 7, valueFrom := some vfKrakenOnly }
    ("lit") 7 emptyBag rfl rfl

/-- C4: an Int option referencing a KrakenResource whose bag payload is a
JSON number resolves to that number converted by `int(...)` — truncation
toward zero (floor for non-negative, ceiling for negative values); a
payload whose top-level shape is non-numeric (and has a reflect kind,
i.e. is not JSON `null`) fails with the type-mismatch error carrying both
the actual and the expected kind. -/
theorem int_krakenResource_truncates_and_type_checks
    (i : IntOption) (vf : ValueFrom) (kr : ValueFromKrakenResource)
    (dv : DependentValues) (q : ℚ) (d : JSONValue) (k : ReflectKind)
    (hv : i.value = none) (hvf : i.valueFrom = some vf)
    (hcm : vf.configMap = none) (hkr : vf.krakenResource = some kr) :
    (krakenLookup dv.fromKrakenResources kr
        = some (.wellFormed (.num q)) →
      i.toApplicableValue dv = .ok (some (goFloat64ToInt q))
      ∧ (0 ≤ q → goFloat64ToInt q = ⌊q⌋)
      ∧ (q ≤ 0 → goFloat64ToInt q = ⌈q⌉)) ∧
    (krakenLookup dv.fromKrakenResources kr = some (.wellFormed d) →
      d.reflectKind? = some k → k ≠ .float64Kind →
      i.toApplicableValue dv = .err (.typeMismatch d k .float64Kind)) := by
  constructor
  · intro hlook
    refine ⟨?_, goFloat64ToInt_eq_floor q, goFloat64ToInt_eq_ceil q⟩
    rw [intOption_resolve_krakenResource_unfold i vf kr dv hv hvf hcm hkr]
    rw [getValueFromKrakenResourceFloat64,
      fetchKrakenResourceData_of_lookup kr dv.fromKrakenResources _ hlook]
    rfl
  · intro hlook hkind hne
    rw [intOption_resolve_krakenResource_unfold i vf kr dv hv hvf hcm hkr]
    rw [getValueFromKrakenResourceFloat64,
      fetchKrakenResourceData_of_lookup kr dv.fromKrakenResources _ hlook]
    simp only [parseJSON, hkind]
    simp [hne]

/-- Witness for C4: payload `3.9` resolves to `3` and payload `"hello"`
fails naming `string` (actual) and `float64` (expected). -/
theorem int_krakenResource_truncates_and_type_checks_witness :
    IntOption.toApplicableValue iOptKraken bagReplicas39 = .ok (some 3)
    ∧ IntOption.toApplicableValue iOptKraken bagReplicasHello
        = .err (.typeMismatch (JSONValue.str ("hello")) .stringKind .float64Kind) := by
  constructor
  · have h := (int_krakenResource_truncates_and_type_checks iOptKraken vfKrakenOnly
      krRefReplicas bagReplicas39 qThreeNine JSONValue.null .boolKind
      rfl rfl rfl rfl).1 (by decide)
    exact h.1.trans (by decide)
  · exact (int_krakenResource_truncates_and_type_checks iOptKraken vfKrakenOnly
      krRefReplicas bagReplicasHello 0 (JSONValue.str ("hello")) .stringKind
      rfl rfl rfl rfl).2 (by decide) rfl (by decide)

/-- C5: an Int option referencing a ConfigMap parses the looked-up string
with `strconv.Atoi` (base-10): a successful parse resolves to the parsed
integer and a failed parse propagates the coercion error. -/
theorem int_configMap_parses_base10
    (i : IntOption) (vf : ValueFrom) (cm : ValueFromConfigMap)
    (dv : DependentValues) (v : String) (n : Int) (e : GoError)
    (hv : i.value = none) (hvf : i.valueFrom = some vf)
    (hcm : vf.configMap = some cm)
    (hlook : getValueFromConfigMap cm dv.fromConfigMaps = .ok v) :
    (goAtoi v = .ok n → i.toApplicableValue dv = .ok (some n)) ∧
    (goAtoi v = .error e → i.toApplicableValue dv = .err e) := by
  constructor
  · intro hp
    simp only [IntOption.toApplicableValue, hv, hvf, hcm, hlook, hp]
  · intro hp
    simp only [IntOption.toApplicableValue, hv, hvf, hcm, hlook, hp]

/-- Witness for C5: against the string `42` resolution yields `42`, and
against the non-parseable string `hello` it fails with the syntax error
from `strconv.Atoi`. -/
theorem int_configMap_parses_base10_witness :
    IntOption.toApplicableValue iOptConfig bagPort42 = .ok (some 42)
    ∧ IntOption.toApplicableValue iOptConfig bagPortHello
        = .err (.atoiSyntax ("hello")) := by
  constructor
  · exact (int_configMap_parses_base10 iOptConfig vfConfigOnly cmRefPort
      bagPort42 ("42") 42 GoError.malformedValueFrom rfl rfl rfl (by decide)).1
      (by decide)
  · exact (int_configMap_parses_base10 iOptConfig vfConfigOnly cmRefPort
      bagPortHello ("hello") 0 (.atoiSyntax ("hello")) rfl rfl rfl (by decide)).2
      (by decide)

lemma missingConfigMap_message_ne (n k n₂ : String) :
    (GoError.missingConfigMapName n).message
      ≠ (GoError.missingConfigMapKey k n₂).message := by
  simp only [GoError.message]
  intro h
  have h2 := congrArg String.data h
  simp only [String.data_append] at h2
  simp at h2

/-- C6: config-source resolution against a bag fails with the
missing-name error (carrying the name) when the named ConfigMap is
absent, and with the distinct missing-key error (carrying the key and
the name) when the name is present but the key is absent; the two errors
differ both as values and in their rendered messages. -/
theorem configMap_lookup_missing_errors
    (cm : ValueFromConfigMap) (cmVals : DependentValuesFromConfigMaps)
    (m : List (String × String)) :
    (cmVals.lookup cm.name = none →
      getValueFromConfigMap cm cmVals
        = .error (.missingConfigMapName cm.name)) ∧
    (cmVals.lookup cm.name = some m → m.lookup cm.key = none →
      getValueFromConfigMap cm cmVals
        = .error (.missingConfigMapKey cm.key cm.name)) ∧
    (∀ n k n₂, GoError.missingConfigMapName n
      ≠ GoError.missingConfigMapKey k n₂) ∧
    (∀ n k n₂, (GoError.missingConfigMapName n).message
      ≠ (GoError.missingConfigMapKey k n₂).message) := by
  refine ⟨?_, ?_, ?_, missingConfigMap_message_ne⟩
  · intro h
    simp only [getValueFromConfigMap, h]
  · intro h1 h2
    simp only [getValueFromConfigMap, h1, h2]
  · intro n k n₂
    simp

/-- Witness for C6: in a bag holding only ConfigMap `cfg` with key
`port`, a lookup of ConfigMap `nope` fails with the missing-name error
and a lookup of key `nope` in `cfg` fails with the missing-key error. -/
theorem configMap_lookup_missing_errors_witness :
    getValueFromConfigMap { name := ("nope"), key := ("port") }
        bagPort8080.fromConfigMaps
      = .error (.missingConfigMapName ("nope"))
    ∧ getValueFromConfigMap { name := ("cfg"), key := ("nope") }
        bagPort8080.fromConfigMaps
      = .error (.missingConfigMapKey ("nope") ("cfg"))
    ∧ GoError.missingConfigMapName ("nope")
        ≠ GoError.missingConfigMapKey ("nope") ("cfg") := by
  refine ⟨?_, ?_, ?_⟩
  · exact (configMap_lookup_missing_errors { name := ("nope"), key := ("port") }
      bagPort8080.fromConfigMaps []).1 (by decide)
  · exact (configMap_lookup_missing_errors { name := ("cfg"), key := ("nope") }
      bagPort8080.fromConfigMaps [(("port"), ("8080"))]).2.1 (by decide) (by decide)
  · exact (configMap_lookup_missing_errors { name := ("cfg"), key := ("nope") }
      bagPort8080.fromConfigMaps []).2.2.1 ("nope") ("nope") ("cfg")

/-- C7: an option with neither literal nor reference set resolves to the
absent result `(nil, nil)` — no error — against every bag. -/
theorem unset_option_resolves_to_nil
    (s : StringOption) (i : IntOption) (dv : DependentValues)
    (hsv : s.value = none) (hsvf : s.valueFrom = none)
    (hiv : i.value = none) (hivf : i.valueFrom = none) :
    s.toApplicableValue dv = .ok none ∧ i.toApplicableValue dv = .ok none := by
  constructor
  · simp only [StringOption.toApplicableValue, hsv, hsvf]
  · simp only [IntOption.toApplicableValue, hiv, hivf]

/-- Witness for C7: the all-nil options resolve to the absent result
against a non-trivial bag. -/
theorem unset_option_resolves_to_nil_witness :
    StringOption.toApplicableValue { value := none, valueFrom := none } bagPort8080
      = .ok none
    ∧ IntOption.toApplicableValue { value := none, valueFrom := none } bagReplicas39
      = .ok none := by
  constructor
  · exact (unset_option_resolves_to_nil { value := none, valueFrom := none }
      { value := none, valueFrom := none } bagPort8080 rfl rfl rfl rfl).1
  · exact (unset_option_resolves_to_nil { value := none, valueFrom := none }
      { value := none, valueFrom := none } bagReplicas39 rfl rfl rfl rfl).2

/-- C8: resolution is deterministic and reads only the supplied bag: its
result is a function of the option and the two map fields of the bag
alone, so two calls with the same option and bags with equal contents
return the same result.  Side-effect freedom holds by construction of
the embedding: both `ToApplicableValue` implementations are modelled as
pure functions that return only a result, never an updated option or
bag, faithfully to the Go code, which performs no writes to either. -/
theorem resolution_deterministic
    (s : StringOption) (i : IntOption) (dv dv₂ : DependentValues)
    (hc : dv.fromConfigMaps = dv₂.fromConfigMaps)
    (hk : dv.fromKrakenResources = dv₂.fromKrakenResources) :
    s.toApplicableValue dv = s.toApplicableValue dv₂
    ∧ i.toApplicableValue dv = i.toApplicableValue dv₂ := by
  have h : dv = dv₂ := by
    cases dv; cases dv₂; simp_all
  rw [h]
  exact ⟨rfl, rfl⟩

/-- Witness for C8: two calls against equal bags agree. -/
theorem resolution_deterministic_witness :
    IntOption.toApplicableValue iOptKraken bagReplicas39
      = IntOption.toApplicableValue iOptKraken bagReplicas39 :=
  (resolution_deterministic sOptKraken iOptKraken bagReplicas39 bagReplicas39
    rfl rfl).2

/-- C9: with the Secret variant nil, `AddToDependencyRequestSpec` appends
exactly the dependency descriptor of each populated variant — one
ConfigMap dependency carrying the Name and Key of a populated ConfigMap
reference, one KrakenResource dependency carrying Kind, Name, Path and
the expected reflect kind of a populated KrakenResource reference — and
leaves the list of any unpopulated variant unchanged. -/
theorem addToDependencyRequestSpec_appends
    (vf : ValueFrom) (dr : DependencyRequestSpec) (kind : ReflectKind)
    (hsec : vf.secret = none) :
    vf.addToDependencyRequestSpec dr kind = .ok
      { krakenResourceDependencies :=
          dr.krakenResourceDependencies ++
            (vf.krakenResource.map
              (fun k => k.toKrakenResourceDependency kind)).toList,
        configMapDependencies :=
          dr.configMapDependencies ++
            (vf.configMap.map ValueFromConfigMap.toConfigMapDependency).toList } := by
  obtain ⟨cm, sec, kr⟩ := vf
  cases cm <;> cases kr <;>
    simp_all [ValueFrom.addToDependencyRequestSpec]

/-- Witness for C9: on a non-empty request, the config-only reference
appends one ConfigMap dependency and leaves the KrakenResource list
unchanged; the kraken-only reference appends one KrakenResource
dependency (with the supplied reflect kind) and leaves the ConfigMap
list unchanged. -/
theorem addToDependencyRequestSpec_appends_witness :
    vfConfigOnly.addToDependencyRequestSpec drSample .stringKind = .ok
      { krakenResourceDependencies := drSample.krakenResourceDependencies,
        configMapDependencies :=
          [{ name := ("cm0"), key := ("k0") }, { name := ("cfg"), key := ("port") }] }
    ∧ vfKrakenOnly.addToDependencyRequestSpec drSample .float64Kind = .ok
      { krakenResourceDependencies :=
          [{ kind := ("Existing"), name := ("kr0"), path := ("p0"),
             reflectKind := .boolKind },
           { kind := ("Deployment"), name := ("web"), path := ("replicas"),
             reflectKind := .float64Kind }],
        configMapDependencies := drSample.configMapDependencies } := by
  constructor
  · exact (addToDependencyRequestSpec_appends vfConfigOnly drSample
      .stringKind rfl).trans (by decide)
  · exact (addToDependencyRequestSpec_appends vfKrakenOnly drSample
      .float64Kind rfl).trans (by decide)

/-- C10: resolution of a KrakenResource reference is not total: when the
raw payload in the bag parses as JSON `null`, the unmarshalled data is
the nil interface, `reflect.TypeOf` returns the nil type (modelled as
`reflectKind?` being `none`), and the `Kind()` call panics — for both the
string and the integer instantiation — instead of returning an error
value. -/
theorem krakenResource_null_payload_panics
    (s : StringOption) (i : IntOption) (vf : ValueFrom)
    (kr : ValueFromKrakenResource) (dv : DependentValues)
    (hsv : s.value = none) (hsvf : s.valueFrom = some vf)
    (hiv : i.value = none) (hivf : i.valueFrom = some vf)
    (hcm : vf.configMap = none) (hkr : vf.krakenResource = some kr)
    (hlook : krakenLookup dv.fromKrakenResources kr
      = some (.wellFormed .null)) :
    s.toApplicableValue dv = .panic nilKindPanicMsg
    ∧ i.toApplicableValue dv = .panic nilKindPanicMsg := by
  constructor
  · rw [stringOption_resolve_krakenResource_unfold s vf kr dv hsv hsvf hcm hkr]
    rw [getValueFromKrakenResourceString,
      fetchKrakenResourceData_of_lookup kr dv.fromKrakenResources _ hlook]
    rfl
  · rw [intOption_resolve_krakenResource_unfold i vf kr dv hiv hivf hcm hkr]
    rw [getValueFromKrakenResourceFloat64,
      fetchKrakenResourceData_of_lookup kr dv.fromKrakenResources _ hlook]
    rfl

/-- Witness for C10: against the bag holding payload `null` at
`Deployment/web/replicas`, both option resolutions panic. -/
theorem krakenResource_null_payload_panics_witness :
    StringOption.toApplicableValue sOptKraken bagReplicasNull
      = .panic nilKindPanicMsg
    ∧ IntOption.toApplicableValue iOptKraken bagReplicasNull
      = .panic nilKindPanicMsg :=
  krakenResource_null_payload_panics sOptKraken iOptKraken vfKrakenOnly
    krRefReplicas bagReplicasNull rfl rfl rfl rfl rfl rfl (by decide)

/-- C4 counterexample: `null` is a payload whose top-level JSON shape is
not numeric, yet resolving an integer option against it does not fail
with a type-mismatch error value — it panics (the nil interface has no
reflect kind), so the universal form of the claim fails at this input. -/
theorem int_krakenResource_null_not_type_mismatch :
    IntOption.toApplicableValue iOptKraken bagReplicasNull
      = .panic nilKindPanicMsg := by
  rfl
